import Mathlib

/-!
Verification of the itprod equipment-tracking repository.

Embedded source:
- the Express handler for POST /api/assets (connect to SQL Server, run one
  parameterized INSERT into the Assets table via a tagged template, answer
  200 with a fixed Hebrew success message or 500 with a fixed Hebrew error
  message);
- the client form script add_equipment.js (IIFE looking up the placement
  select and the sold_to_wrap element, toggling the wrapper's display on
  load and on every change event).
-/

/-- A JSON value as the handler can receive it in the request body. -/
inductive JsValue where
  | str (s : String)
  | num (n : Int)
  | boolean (b : Bool)
  | null
deriving Repr, DecidableEq

/-- The parsed JSON request body: an object, i.e. a finite key-value map. -/
def JsonBody := List (String × JsValue)

instance : DecidableEq JsonBody := by
  unfold JsonBody
  infer_instance

/-- Property access `req.body.k`: `some v` when the property is present,
`none` when it is absent (JS `undefined`). -/
def getField (body : JsonBody) (k : String) : Option JsValue :=
  (body.find? (fun p => p.1 == k)).map (fun p => p.2)

/-- One row of the Assets table as built by the handler: the six
destructured fields, each possibly `undefined`/null. -/
structure AssetRow where
  name : Option JsValue
  vendor : Option JsValue
  warranty_expiry : Option JsValue
  status : Option JsValue
  barcode : Option JsValue
  history : Option JsValue
deriving Repr, DecidableEq

/-- The destructuring
`const { name, vendor, warranty_expiry, status, barcode, history } = req.body`. -/
def extractRow (body : JsonBody) : AssetRow :=
  { name := getField body "name"
  , vendor := getField body "vendor"
  , warranty_expiry := getField body "warranty_expiry"
  , status := getField body "status"
  , barcode := getField body "barcode"
  , history := getField body "history" }

/-- A query as the mssql driver sends it: fixed SQL text plus bound
parameters travelling separately. -/
structure SqlQuery where
  text : String
  params : List (Option JsValue)
deriving Repr, DecidableEq

/-- The constant SQL text of the tagged template literal passed to
`sql.query`: the string parts are fixed at the call site, the interpolated
values become bound parameters. -/
def insertSqlText : String :=
  "INSERT INTO Assets (name, vendor, warranty_expiry, status, barcode, history) VALUES (@p1, @p2, @p3, @p4, @p5, @p6)"

/-- The query issued by the handler for a destructured row. -/
def insertQuery (r : AssetRow) : SqlQuery :=
  { text := insertSqlText
  , params := [r.name, r.vendor, r.warranty_expiry, r.status, r.barcode, r.history] }

/-- Outcome of the awaited database interaction: the connection succeeds
and the insert succeeds, or `sql.connect` rejects (no query reaches the
database), or `sql.query` rejects (the statement fails atomically). -/
inductive DbOutcome where
  | ok
  | connectFail (e : String)
  | queryFail (e : String)
deriving Repr, DecidableEq

/-- The fixed localized success message `'הציוד נשמר בהצלחה!'`. -/
def successMessage : String := "הציוד נשמר בהצלחה!"

/-- The fixed localized generic error message `'שגיאה בשמירת הציוד'`. -/
def errorMessage : String := "שגיאה בשמירת הציוד"

/-- The server-side log line `console.error('שגיאה:', err)`. -/
def logLine (e : String) : String := "שגיאה: " ++ e

/-- The JSON body of an HTTP response: `{ message: ... }` or
`{ error: ... }`. -/
inductive RespBody where
  | message (s : String)
  | error (s : String)
deriving Repr, DecidableEq

/-- An HTTP response: status code and JSON body. -/
structure Response where
  status : Nat
  body : RespBody
deriving Repr, DecidableEq

/-- Observable server-side state: the Assets table, the queries the
database received, and the console log. -/
structure ServerState where
  assets : List AssetRow
  issued : List SqlQuery
  log : List String
deriving Repr, DecidableEq

/-- The `app.post('/api/assets')` handler: destructure the six fields,
try connect + parameterized insert, answer 200 with the success message,
or catch any rejection, log it, and answer 500 with the generic error. -/
def handlePostAssets (oracle : DbOutcome) (st : ServerState) (body : JsonBody) :
    ServerState × Response :=
  let row := extractRow body
  let q := insertQuery row
  match oracle with
  | .ok =>
      ({ st with assets := st.assets ++ [row], issued := st.issued ++ [q] },
       { status := 200, body := .message successMessage })
  | .connectFail e =>
      ({ st with log := st.log ++ [logLine e] },
       { status := 500, body := .error errorMessage })
  | .queryFail e =>
      ({ st with issued := st.issued ++ [q], log := st.log ++ [logLine e] },
       { status := 500, body := .error errorMessage })

/-- The six property names the handler destructures from the body. -/
def assetFields : List String :=
  ["name", "vendor", "warranty_expiry", "status", "barcode", "history"]

/-- The inline style of a DOM element: its `display` property plus every
other CSS property. -/
structure Style where
  display : String
  otherCss : List (String × String)
deriving Repr, DecidableEq

/-- A DOM element with the features the script can touch: its current
`value`, its inline style, and its other attributes. -/
structure Elem where
  value : String
  style : Style
  attrs : List (String × String)
deriving Repr, DecidableEq

/-- The document as the script sees it: `getElementById('placement')`,
`getElementById('sold_to_wrap')`, each possibly absent, and all other
elements of the page keyed by id. -/
structure Doc where
  placement : Option Elem
  soldWrap : Option Elem
  rest : List (String × Elem)
deriving Repr, DecidableEq

/-- The literal sold status of the source locale, `'נמכר'`. -/
def soldLiteral : String := "נמכר"

/-- The display value the ternary computes:
`(placement.value === 'נמכר') ? '' : 'none'`. -/
def soldDisplay (v : String) : String :=
  if v = soldLiteral then "" else "none"

/-- `function toggleSold()`: return unless both elements exist, else set
the wrapper's `style.display` from the ternary. -/
def toggleSold (d : Doc) : Doc :=
  match d.placement, d.soldWrap with
  | some p, some w =>
      let style' : Style := { w.style with display := soldDisplay p.value }
      let w' : Elem := { w with style := style' }
      { d with soldWrap := some w' }
  | _, _ => d

/-- The IIFE body after the lookups: when the placement select exists,
register the change listener and run the toggle once. -/
def scriptInit (d : Doc) : Doc :=
  if d.placement.isSome then toggleSold d else d

/-- A change event on the placement select: the user sets its value to
`v`, then the registered listener runs `toggleSold`. Without a placement
element no such event can fire. -/
def changeEvent (d : Doc) (v : String) : Doc :=
  match d.placement with
  | some p =>
      let p' : Elem := { p with value := v }
      toggleSold { d with placement := some p' }
  | none => d

/-- The wrapper's display reflects the selector's current value. -/
def dispInv (d : Doc) : Prop :=
  ∀ p w, d.placement = some p → d.soldWrap = some w →
    w.style.display = soldDisplay p.value

/-- The empty initial server state: empty Assets table, no issued queries,
empty log. -/
def st0 : ServerState := { assets := [], issued := [], log := [] }

/-- A concrete valid payload supplying all six fields. -/
def bodyAll : JsonBody :=
  [("name", .str "מחשב נייד"), ("vendor", .str "Dell"),
   ("warranty_expiry", .str "2026-01-01"), ("status", .str "פעיל"),
   ("barcode", .str "A123"), ("history", .str "נרכש")]

/-- Claim C1: for every valid payload supplying the six fields, the
successful handler run answers HTTP 200 with the fixed localized success
message and appends exactly one row to the Assets table whose six columns
equal the payload's fields. -/
theorem post_assets_valid_payload_ok (st : ServerState) (body : JsonBody)
    (n v w s b h : JsValue)
    (hn : getField body "name" = some n)
    (hv : getField body "vendor" = some v)
    (hw : getField body "warranty_expiry" = some w)
    (hs : getField body "status" = some s)
    (hb : getField body "barcode" = some b)
    (hh : getField body "history" = some h) :
    (handlePostAssets .ok st body).2 =
      { status := 200, body := .message successMessage } ∧
    (handlePostAssets .ok st body).1.assets =
      st.assets ++
        [{ name := some n, vendor := some v, warranty_expiry := some w,
           status := some s, barcode := some b, history := some h }] := by
  refine ⟨rfl, ?_⟩
  simp [handlePostAssets, extractRow, hn, hv, hw, hs, hb, hh]

/-- Witness for C1 at the concrete payload `bodyAll`. -/
theorem post_assets_valid_payload_ok_witness :
    getField bodyAll "name" = some (.str "מחשב נייד") ∧
    getField bodyAll "vendor" = some (.str "Dell") ∧
    getField bodyAll "warranty_expiry" = some (.str "2026-01-01") ∧
    getField bodyAll "status" = some (.str "פעיל") ∧
    getField bodyAll "barcode" = some (.str "A123") ∧
    getField bodyAll "history" = some (.str "נרכש") ∧
    ((handlePostAssets .ok st0 bodyAll).2 =
      { status := 200, body := .message successMessage } ∧
    (handlePostAssets .ok st0 bodyAll).1.assets =
      st0.assets ++
        [{ name := some (.str "מחשב נייד"), vendor := some (.str "Dell"),
           warranty_expiry := some (.str "2026-01-01"),
           status := some (.str "פעיל"), barcode := some (.str "A123"),
           history := some (.str "נרכש") }]) :=
  ⟨rfl, rfl, rfl, rfl, rfl, rfl,
   post_assets_valid_payload_ok st0 bodyAll _ _ _ _ _ _ rfl rfl rfl rfl rfl rfl⟩

/-- Claim C2: the handler performs no required-field check: whatever the
body, the response is 200 or 500 (never a rejection), the successful run
still inserts one row, and each column of the inserted row is exactly the
body's property — `none` (null/undefined) whenever the field is absent. -/
theorem post_assets_missing_fields_still_insert (o : DbOutcome)
    (st : ServerState) (body : JsonBody) :
    ((handlePostAssets o st body).2.status = 200 ∨
     (handlePostAssets o st body).2.status = 500) ∧
    (handlePostAssets .ok st body).2.status = 200 ∧
    (handlePostAssets .ok st body).1.assets = st.assets ++ [extractRow body] ∧
    (extractRow body).name = getField body "name" ∧
    (extractRow body).vendor = getField body "vendor" ∧
    (extractRow body).warranty_expiry = getField body "warranty_expiry" ∧
    (extractRow body).status = getField body "status" ∧
    (extractRow body).barcode = getField body "barcode" ∧
    (extractRow body).history = getField body "history" := by
  cases o <;> simp [handlePostAssets, extractRow]

/-- Claim C3: exactly two outcomes are observable (status 200 or 500); on
any failure — connection or query alike — the handler logs the error and
answers 500 with the same fixed localized error body, independently of the
submitted field values. -/
theorem post_assets_failure_collapses (o : DbOutcome) (e : String)
    (st : ServerState) (body body' : JsonBody) :
    ((handlePostAssets o st body).2.status = 200 ∨
     (handlePostAssets o st body).2.status = 500) ∧
    (handlePostAssets (.connectFail e) st body).2 =
      { status := 500, body := .error errorMessage } ∧
    (handlePostAssets (.queryFail e) st body).2 =
      { status := 500, body := .error errorMessage } ∧
    (handlePostAssets (.connectFail e) st body).1.log = st.log ++ [logLine e] ∧
    (handlePostAssets (.queryFail e) st body).1.log = st.log ++ [logLine e] ∧
    (handlePostAssets (.connectFail e) st body).2 =
      (handlePostAssets (.connectFail e) st body').2 ∧
    (handlePostAssets (.queryFail e) st body).2 =
      (handlePostAssets (.queryFail e) st body').2 := by
  cases o <;> simp [handlePostAssets]

/-- Claim C4: no in-between state: a successful call appends exactly one
row to the Assets table, and a failing call appends none — the table is
unchanged and only a log line is added. -/
theorem post_assets_atomic_insert (e : String) (st : ServerState)
    (body : JsonBody) :
    (handlePostAssets .ok st body).1.assets = st.assets ++ [extractRow body] ∧
    (handlePostAssets .ok st body).1.assets.length = st.assets.length + 1 ∧
    (handlePostAssets (.connectFail e) st body).1.assets = st.assets ∧
    (handlePostAssets (.queryFail e) st body).1.assets = st.assets ∧
    (handlePostAssets (.connectFail e) st body).1.log = st.log ++ [logLine e] ∧
    (handlePostAssets (.queryFail e) st body).1.log = st.log ++ [logLine e] := by
  simp [handlePostAssets]

/-- Claim C5: the handler issues a single parameterized insert: the SQL
text sent to the database is the fixed constant `insertSqlText`, identical
for any two payloads, and the payload's six field values travel only as
the bound parameter list. -/
theorem post_assets_parameterized_sql (st : ServerState)
    (body body' : JsonBody) :
    (handlePostAssets .ok st body).1.issued =
      st.issued ++ [insertQuery (extractRow body)] ∧
    (insertQuery (extractRow body)).text = insertSqlText ∧
    (insertQuery (extractRow body)).text = (insertQuery (extractRow body')).text ∧
    (insertQuery (extractRow body)).params =
      [getField body "name", getField body "vendor",
       getField body "warranty_expiry", getField body "status",
       getField body "barcode", getField body "history"] := by
  simp [handlePostAssets, insertQuery, extractRow]

/-- Claim C9: the handler reads only the six named fields from the body:
two bodies agreeing on those six properties produce identical server
states and identical responses. -/
theorem post_assets_reads_only_six_fields (o : DbOutcome) (st : ServerState)
    (b b' : JsonBody)
    (hagree : ∀ k ∈ assetFields, getField b k = getField b' k) :
    handlePostAssets o st b = handlePostAssets o st b' := by
  have hn := hagree "name" (by simp [assetFields])
  have hv := hagree "vendor" (by simp [assetFields])
  have hw := hagree "warranty_expiry" (by simp [assetFields])
  have hs := hagree "status" (by simp [assetFields])
  have hb := hagree "barcode" (by simp [assetFields])
  have hh := hagree "history" (by simp [assetFields])
  have hrow : extractRow b = extractRow b' := by
    simp [extractRow, hn, hv, hw, hs, hb, hh]
  cases o <;> simp [handlePostAssets, hrow]

/-- A payload with one asset field plus an unrecognized extra property. -/
def bodyExtra : JsonBody := [("name", .str "מסך"), ("color", .str "black")]

/-- The same payload without the extra property. -/
def bodyPlain : JsonBody := [("name", .str "מסך")]

/-- Witness for C9: the two concrete bodies differ in an extra property
yet get the very same treatment. -/
theorem post_assets_reads_only_six_fields_witness :
    (∀ k ∈ assetFields, getField bodyExtra k = getField bodyPlain k) ∧
    handlePostAssets .ok st0 bodyExtra = handlePostAssets .ok st0 bodyPlain :=
  ⟨by decide, post_assets_reads_only_six_fields .ok st0 bodyExtra bodyPlain (by decide)⟩

/-- The ternary produces the empty display exactly for the sold literal. -/
lemma soldDisplay_eq_empty_iff (v : String) :
    soldDisplay v = "" ↔ v = soldLiteral := by
  unfold soldDisplay
  split
  · simp [*]
  · exact iff_of_false (by decide) (by assumption)

/-- `toggleSold` keeps the placement element and the wrapper's presence. -/
lemma toggleSold_pres (d : Doc) :
    (toggleSold d).placement = d.placement ∧
    (toggleSold d).soldWrap.isSome = d.soldWrap.isSome := by
  obtain ⟨dp, dw, dr⟩ := d
  cases dp <;> cases dw <;> simp [toggleSold]

/-- After a `toggleSold` on a page with both elements, the wrapper's
display reflects the selector's value. -/
lemma toggleSold_establishes_inv (d : Doc) (hp : d.placement.isSome)
    (hw : d.soldWrap.isSome) : dispInv (toggleSold d) := by
  obtain ⟨dp, dw, dr⟩ := d
  cases dp with
  | none => simp at hp
  | some p =>
    cases dw with
    | none => simp at hw
    | some w =>
      intro p' w' hp' hw'
      simp [toggleSold] at hp' hw'
      simp [← hp', ← hw']

/-- A change event keeps both elements present and re-establishes the
display invariant. -/
lemma changeEvent_establishes_inv (d : Doc) (v : String)
    (hp : d.placement.isSome) (hw : d.soldWrap.isSome) :
    (changeEvent d v).placement.isSome ∧ (changeEvent d v).soldWrap.isSome ∧
    dispInv (changeEvent d v) := by
  obtain ⟨dp, dw, dr⟩ := d
  cases dp with
  | none => simp at hp
  | some p =>
    refine ⟨?_, ?_, ?_⟩
    · have h := (toggleSold_pres ⟨some { p with value := v }, dw, dr⟩).1
      simp [changeEvent, h]
    · have h := (toggleSold_pres ⟨some { p with value := v }, dw, dr⟩).2
      simp [changeEvent, h, hw]
    · have h := toggleSold_establishes_inv ⟨some { p with value := v }, dw, dr⟩
        (by simp) hw
      simpa [changeEvent] using h

/-- Any sequence of change events starting from a page with both elements
present and the invariant holding keeps the invariant. -/
lemma foldl_changeEvent_inv (vs : List String) (d : Doc)
    (hp : d.placement.isSome) (hw : d.soldWrap.isSome) (hinv : dispInv d) :
    (List.foldl changeEvent d vs).placement.isSome ∧
    (List.foldl changeEvent d vs).soldWrap.isSome ∧
    dispInv (List.foldl changeEvent d vs) := by
  induction vs generalizing d with
  | nil => exact ⟨hp, hw, hinv⟩
  | cons v vs ih =>
    have h := changeEvent_establishes_inv d v hp hw
    simpa [List.foldl] using ih (changeEvent d v) h.1 h.2.1 h.2.2

/-- `scriptInit` on a page with both elements runs the toggle. -/
lemma scriptInit_establishes_inv (d : Doc) (hp : d.placement.isSome)
    (hw : d.soldWrap.isSome) :
    (scriptInit d).placement.isSome ∧ (scriptInit d).soldWrap.isSome ∧
    dispInv (scriptInit d) := by
  unfold scriptInit
  simp only [hp, if_true]
  exact ⟨by simp [(toggleSold_pres d).1, hp], by simp [(toggleSold_pres d).2, hw],
    toggleSold_establishes_inv d hp hw⟩

/-- Claim C6: with both elements present, one toggle invocation sets the
wrapper's display to the empty string exactly when the selector's value is
the sold literal `'נמכר'`, and to `'none'` for every other value. -/
theorem toggleSold_shows_iff_sold (d : Doc) (p w : Elem)
    (hp : d.placement = some p) (hw : d.soldWrap = some w) :
    ∃ w', (toggleSold d).soldWrap = some w' ∧
      w'.style.display = soldDisplay p.value ∧
      (w'.style.display = "" ↔ p.value = soldLiteral) ∧
      (p.value ≠ soldLiteral → w'.style.display = "none") := by
  obtain ⟨dp, dw, dr⟩ := d
  simp only at hp hw
  subst hp
  subst hw
  refine ⟨⟨w.value, ⟨soldDisplay p.value, w.style.otherCss⟩, w.attrs⟩, ?_, rfl, ?_, ?_⟩
  · simp [toggleSold]
  · exact soldDisplay_eq_empty_iff p.value
  · intro hne
    simp [soldDisplay, hne]

/-- A concrete placement select whose value is the sold literal. -/
def elemSold : Elem := ⟨"נמכר", ⟨"", []⟩, []⟩

/-- A concrete hidden sold-to wrapper. -/
def elemWrap : Elem := ⟨"", ⟨"none", []⟩, [("id", "sold_to_wrap")]⟩

/-- A concrete page holding both elements. -/
def docBoth : Doc := ⟨some elemSold, some elemWrap, []⟩

/-- Witness for C6 at the concrete page `docBoth`. -/
theorem toggleSold_shows_iff_sold_witness :
    docBoth.placement = some elemSold ∧ docBoth.soldWrap = some elemWrap ∧
    (∃ w', (toggleSold docBoth).soldWrap = some w' ∧
      w'.style.display = soldDisplay elemSold.value ∧
      (w'.style.display = "" ↔ elemSold.value = soldLiteral) ∧
      (elemSold.value ≠ soldLiteral → w'.style.display = "none")) :=
  ⟨rfl, rfl, toggleSold_shows_iff_sold docBoth elemSold elemWrap rfl rfl⟩

/-- Claim C7: starting at page load with both elements present, after the
initialization toggle and any sequence of change events, the wrapper's
display always reflects the selector's current value: empty exactly when
it equals the sold literal. -/
theorem toggle_invariant_after_load (d : Doc) (vs : List String)
    (hp : d.placement.isSome) (hw : d.soldWrap.isSome) :
    dispInv (List.foldl changeEvent (scriptInit d) vs) := by
  have h0 := scriptInit_establishes_inv d hp hw
  exact (foldl_changeEvent_inv vs (scriptInit d) h0.1 h0.2.1 h0.2.2).2.2

/-- Witness for C7: the concrete page `docBoth` after a concrete sequence
of change events. -/
theorem toggle_invariant_after_load_witness :
    docBoth.placement.isSome ∧ docBoth.soldWrap.isSome ∧
    dispInv (List.foldl changeEvent (scriptInit docBoth) ["במלאי", "נמכר"]) :=
  ⟨rfl, rfl, toggle_invariant_after_load docBoth ["במלאי", "נמכר"] rfl rfl⟩

/-- Claim C8: when the placement select or the sold-to wrapper is absent,
toggling is a no-op on the document (and so is the whole script run). -/
theorem toggleSold_noop_when_absent (d : Doc)
    (habs : d.placement = none ∨ d.soldWrap = none) :
    toggleSold d = d ∧ scriptInit d = d := by
  obtain ⟨dp, dw, dr⟩ := d
  cases dp <;> cases dw <;> simp_all [toggleSold, scriptInit]

/-- A concrete page with a placement select but no sold-to wrapper. -/
def docNoWrap : Doc := ⟨some elemSold, none, []⟩

/-- Witness for C8 at the concrete page `docNoWrap`. -/
theorem toggleSold_noop_when_absent_witness :
    (docNoWrap.placement = none ∨ docNoWrap.soldWrap = none) ∧
    (toggleSold docNoWrap = docNoWrap ∧ scriptInit docNoWrap = docNoWrap) :=
  ⟨Or.inr rfl, toggleSold_noop_when_absent docNoWrap (Or.inr rfl)⟩

/-- Claim C10: one toggle invocation mutates at most the wrapper's display
style property: the placement element, every other element of the page,
the wrapper's presence, value, attributes and other style properties are
all untouched. -/
theorem toggleSold_frame (d : Doc) :
    (toggleSold d).placement = d.placement ∧
    (toggleSold d).rest = d.rest ∧
    (toggleSold d).soldWrap.isSome = d.soldWrap.isSome ∧
    (toggleSold d).soldWrap.map Elem.value = d.soldWrap.map Elem.value ∧
    (toggleSold d).soldWrap.map Elem.attrs = d.soldWrap.map Elem.attrs ∧
    (toggleSold d).soldWrap.map (fun w => w.style.otherCss) =
      d.soldWrap.map (fun w => w.style.otherCss) := by
  obtain ⟨dp, dw, dr⟩ := d
  cases dp <;> cases dw <;> simp [toggleSold]
